import Mathlib

/-!
Shallow embedding of the Form3 account client library
(package `account`, `config` and `requestenricher` of the repository),
together with proofs of the specified behaviours.

The Go sources embedded here are:
  * `pkg/account/account.go` — the resource client (`NewClient`, `Create`,
    `Fetch`, `Delete`, `DeleteVersion`) and its response classification;
  * `internal/requestenricher/requestenricher.go` — the enriched HTTP
    client wrapping a single send with context and before/after hooks;
  * `internal/config/config.go` and `pkg/config/config.go` — client
    configuration and functional options.

Modelling conventions:
  * Go's `error` interface values are the inductive `GoError`; the
    package-level sentinel errors are its constant constructors, transport,
    JSON-decode and body-read failures carry their message.
  * A response body (`io.ReadCloser`) is represented by the outcomes of the
    three ways the client consumes it: decoding as an `{error_message}`
    envelope, decoding as a `{"data": record}` container, and a raw read.
    `encoding/json` and the network are external collaborators, so a body is
    identified with its decode/read semantics.
  * The HTTP transport is a function from requests to `Except GoError
    Response`; operations additionally return the list of requests they
    issued, so that "no network call is made" is expressible.
  * Machine integers: Go `uint(x)` of an `int64` is `(x % 2^64).toNat`.
-/

deriving instance DecidableEq for Except

/-- Outcome of a `json.Decoder.Decode` call: `eof` is the `io.EOF` returned
on an empty body, `fail` any other decode error, `ok` a successful decode. -/
inductive JsonResult (α : Type) where
  | eof : JsonResult α
  | fail : String → JsonResult α
  | ok : α → JsonResult α
deriving DecidableEq, Repr

/-- `true` exactly on `JsonResult.fail`, the hard (non-EOF) decode error. -/
def JsonResult.isHardFail : JsonResult α → Bool
  | .fail _ => true
  | _ => false

/-- Go `error` values occurring in the client: the sentinel errors of
`pkg/account/account.go` plus transport, decode, read and generator
failures carrying their message, and `io.EOF`. -/
inductive GoError where
  | baseUrlNotConfigured
  | organisationIDNotConfigured
  | nilUuid
  | accountNotFound
  | invalidAccountVersion
  | serverError
  | serverUnavailable
  | unexpectedServerResponse
  | invalidRequest
  | transportError : String → GoError
  | decodeError : String → GoError
  | readError : String → GoError
  | generatorError : String → GoError
  | eofError
deriving DecidableEq, Repr

/-- A 128-bit UUID, identified by its numeric value. -/
structure Uuid where
  val : Nat
deriving DecidableEq, Repr

/-- `uuid.Nil`, the all-zero UUID. -/
def Uuid.nil : Uuid := ⟨0⟩

/-- The string rendering `uuid.UUID.String()` (abstracted; only its
dependence on the UUID value matters to the client). -/
def Uuid.render (u : Uuid) : String := "uuid-" ++ toString u.val

/-- Caller-supplied account attributes: an opaque payload
(`models.go` treats them as a data bag the client never inspects). -/
structure AccountAttributes where
  payload : String
deriving DecidableEq, Repr

/-- The account record (`AccountData` of `models.go`): id, organisation id
and type discriminator as strings, an optional `int64` version, and the
opaque attributes. -/
structure AccountData where
  ID : String
  OrganisationID : String
  Type' : String
  Version : Option Int
  Attributes : Option AccountAttributes
deriving DecidableEq, Repr

/-- A response body, identified with the outcomes of the three ways the
client consumes it: decode as the `serverError` envelope (`error_message`
string), decode as the `dataContainer` envelope, and a raw `Read`. -/
structure Body where
  errDecode : JsonResult String
  dataDecode : JsonResult AccountData
  rawRead : Except GoError String
deriving DecidableEq, Repr

/-- The body of `io.NopCloser(bytes.NewReader([]byte{}))`: an empty stream.
Both JSON decoders return `io.EOF` on it and a raw `Read` returns
`(0, io.EOF)`. -/
def emptyBody : Body :=
  { errDecode := .eof, dataDecode := .eof, rawRead := .error .eofError }

/-- An HTTP request as the client builds it: method, full URL, and for POST
the encoded `{"data": record}` payload (kept structurally). -/
structure Request where
  method : String
  url : String
  body : Option AccountData
deriving DecidableEq, Repr

/-- An HTTP response (`http.Response`), with the header-side fields copied
by `cloneResponse` and the body. -/
structure Response where
  status : String
  statusCode : Nat
  proto : String
  header : List (String × String)
  body : Body
  contentLength : Int
deriving DecidableEq, Repr

/-- `getErrorResponse`: decode the body as the `{error_message}` envelope;
`io.EOF` (empty body) yields the empty message with no error, any other
decode error is returned, a successful decode yields the message. -/
def getErrorResponse (body : Body) : Except GoError String :=
  match body.errDecode with
  | .eof => .ok ""
  | .fail m => .error (.decodeError m)
  | .ok msg => .ok msg

/-- `bodyToAccountData`: decode the body as the `{"data": record}`
container; every decode error (including `io.EOF`) is returned. -/
def bodyToAccountData (body : Body) : Except GoError AccountData :=
  match body.dataDecode with
  | .eof => .error .eofError
  | .fail m => .error (.decodeError m)
  | .ok d => .ok d

/-- The raw-read fallback shared by `Create` and `Fetch` for statuses not
in the switch: read the body, propagate a read error, otherwise fail with
`ErrUnexpectedServerResponse`. -/
def unexpectedResponse (body : Body) : Except GoError AccountData :=
  match body.rawRead with
  | .error e => .error e
  | .ok _ => .error .unexpectedServerResponse

/-- URL path constant `accountsUrl`. -/
def accountsUrl : String := "/organisation/accounts"

/-- Type discriminator constant `accountsType`. -/
def accountsType : String := "accounts"

/-- The client as the operations see it: the (enriched) HTTP transport and
the configured base URL and organisation id (both checked non-nil by
`NewClient`, so held here dereferenced). -/
structure AccountClient where
  doFn : Request → Except GoError Response
  baseUrl : String
  organisationID : Uuid

/-- The response switch of `Create` (`account.go` lines 91–118). -/
def createClassify (resp : Response) : Except GoError AccountData :=
  if resp.statusCode = 400 then
    match getErrorResponse resp.body with
    | .error e => .error e
    | .ok _ => .error .invalidRequest
  else if resp.statusCode = 500 ∨ resp.statusCode = 504 ∨ resp.statusCode = 502 then
    match getErrorResponse resp.body with
    | .error e => .error e
    | .ok _ => .error .serverError
  else if resp.statusCode = 503 then
    .error .serverUnavailable
  else if resp.statusCode = 201 then
    bodyToAccountData resp.body
  else
    unexpectedResponse resp.body

/-- The response switch of `Fetch` (`account.go` lines 132–153). -/
def fetchClassify (resp : Response) : Except GoError AccountData :=
  if resp.statusCode = 404 then
    .error .accountNotFound
  else if resp.statusCode = 500 ∨ resp.statusCode = 504 ∨ resp.statusCode = 502 then
    match getErrorResponse resp.body with
    | .error e => .error e
    | .ok _ => .error .serverError
  else if resp.statusCode = 503 then
    .error .serverUnavailable
  else if resp.statusCode = 200 then
    bodyToAccountData resp.body
  else
    unexpectedResponse resp.body

/-- The response switch of `DeleteVersion` (`account.go` lines 181–205);
the `default` branch returns the transport error, which is `nil` on this
path because a non-nil one returned earlier. -/
def deleteClassify (resp : Response) : Option GoError :=
  if resp.statusCode = 404 then
    some .accountNotFound
  else if resp.statusCode = 409 then
    match getErrorResponse resp.body with
    | .error e => some e
    | .ok _ => some .invalidAccountVersion
  else if resp.statusCode = 500 ∨ resp.statusCode = 504 ∨ resp.statusCode = 502 then
    match getErrorResponse resp.body with
    | .error e => some e
    | .ok _ => some .serverError
  else if resp.statusCode = 503 then
    some .serverUnavailable
  else if resp.statusCode = 204 then
    none
  else
    none

/-- The POST request built by `post` for `Create`: the `{"data": record}`
payload to `{base_url}/organisation/accounts`. -/
def createRequest (c : AccountClient) (acc : AccountData) : Request :=
  { method := "POST", url := c.baseUrl ++ accountsUrl, body := some acc }

/-- The record `Create` constructs before posting (`account.go` 78–83):
the generated id and configured organisation id rendered as strings, the
fixed type discriminator, the caller's attributes, and no version. -/
def createdRecord (c : AccountClient) (newID : Uuid)
    (attributes : AccountAttributes) : AccountData :=
  { ID := newID.render
    OrganisationID := c.organisationID.render
    Type' := accountsType
    Version := none
    Attributes := some attributes }

/-- `Create`: generate an id (the pluggable generator is passed as the
`gen` argument), build the record, POST it, classify the response. The
second component lists the requests issued. -/
def create (c : AccountClient) (gen : Except GoError Uuid)
    (attributes : AccountAttributes) :
    Except GoError AccountData × List Request :=
  match gen with
  | .error e => (.error e, [])
  | .ok newID =>
    let acc := createdRecord c newID attributes
    let req := createRequest c acc
    match c.doFn req with
    | .error e => (.error e, [req])
    | .ok resp => (createClassify resp, [req])

/-- The GET request built by `get` for `Fetch`. -/
def fetchRequest (c : AccountClient) (accountID : Uuid) : Request :=
  { method := "GET"
    url := c.baseUrl ++ accountsUrl ++ "/" ++ accountID.render
    body := none }

/-- `Fetch`: guard against the nil UUID, GET the account, classify. -/
def fetch (c : AccountClient) (accountID : Uuid) :
    Except GoError AccountData × List Request :=
  if accountID = Uuid.nil then
    (.error .nilUuid, [])
  else
    let req := fetchRequest c accountID
    match c.doFn req with
    | .error e => (.error e, [req])
    | .ok resp => (fetchClassify resp, [req])

/-- The DELETE request built by `delete` for `DeleteVersion`. -/
def deleteRequest (c : AccountClient) (accountID : Uuid) (version : Nat) :
    Request :=
  { method := "DELETE"
    url := c.baseUrl ++ accountsUrl ++ "/" ++ accountID.render
            ++ "?version=" ++ toString version
    body := none }

/-- `DeleteVersion`: guard against the nil UUID, DELETE with the version
query parameter, classify. `none` in the first component is Go's `nil`
error (success or the silent fallback). -/
def deleteVersion (c : AccountClient) (accountID : Uuid) (version : Nat) :
    Option GoError × List Request :=
  if accountID = Uuid.nil then
    (some .nilUuid, [])
  else
    let req := deleteRequest c accountID version
    match c.doFn req with
    | .error e => (some e, [req])
    | .ok resp => (deleteClassify resp, [req])

/-- Go's `uint(v)` conversion of an `int64`: reduction modulo `2^64`. -/
def goUintOfInt64 (v : Int) : Nat := (v % (2 ^ 64 : Int)).toNat

/-- The version `Delete` extracts from the fetched record
(`account.go` 162–165): `uint(*acc.Version)` when present, else `0`. -/
def versionOf (acc : AccountData) : Nat :=
  match acc.Version with
  | none => 0
  | some v => goUintOfInt64 v

/-- `Delete`: fetch the account, propagate any fetch error, otherwise
delete at the fetched (or zero) version. -/
def delete (c : AccountClient) (accountID : Uuid) :
    Option GoError × List Request :=
  match fetch c accountID with
  | (.error e, tr) => (some e, tr)
  | (.ok acc, tr) =>
    let r := deleteVersion c accountID (versionOf acc)
    (r.fst, tr ++ r.snd)

/-! ## Configuration and client construction -/

/-- `internal/config.ClientConfig`: every field of is optional (`nil`
pointer) or plain; populated from environment variables by `NewConfig`
and then overwritten by functional options. Durations in nanoseconds. -/
structure ClientConfig where
  organisationID : Option Uuid
  baseUrl : Option String
  timeout : Option Nat
  maxConns : Int
  idleConnTimeout : Option Nat
deriving DecidableEq, Repr

/-- A functional option (`pkg/config.Option`): a configuration rewriter. -/
def ConfigOption : Type := ClientConfig → ClientConfig

/-- `pkg/config.WithBaseUrl`. -/
def withBaseUrl (baseUrl : String) : ConfigOption :=
  fun c => { c with baseUrl := some baseUrl }

/-- `pkg/config.WithOrganisationID`. -/
def withOrganisationID (id : Uuid) : ConfigOption :=
  fun c => { c with organisationID := some id }

/-- `pkg/config.WithTimeout`. -/
def withTimeout (timeout : Nat) : ConfigOption :=
  fun c => { c with timeout := some timeout }

/-- `pkg/config.ApplyOptions`: apply each option to the configuration, in
the order supplied. -/
def applyOptions (cfg : ClientConfig) (options : List ConfigOption) :
    ClientConfig :=
  options.foldl (fun c opt => opt c) cfg

/-- The configuration a constructed client holds, with the two validated
fields dereferenced (`NewClient` returns only after checking both). -/
structure ResolvedConfig where
  baseUrl : String
  organisationID : Uuid
deriving DecidableEq, Repr

/-- `NewClient` (`account.go` 51–70): load the environment configuration
(passed as `envCfg`, the result of `conf.NewConfig()`), apply the options
in order, then fail if the base URL is nil or empty, then fail if the
organisation id is nil (pointer or UUID value), else return the client. -/
def newClient (envCfg : ClientConfig) (options : List ConfigOption) :
    Except GoError ResolvedConfig :=
  let cfg := applyOptions envCfg options
  match cfg.baseUrl with
  | none => .error .baseUrlNotConfigured
  | some b =>
    if b = "" then .error .baseUrlNotConfigured
    else
      match cfg.organisationID with
      | none => .error .organisationIDNotConfigured
      | some o =>
        if o = Uuid.nil then .error .organisationIDNotConfigured
        else .ok { baseUrl := b, organisationID := o }

/-- The operational client built from a constructed configuration and a
transport. -/
def clientOf (doFn : Request → Except GoError Response)
    (rc : ResolvedConfig) : AccountClient :=
  { doFn := doFn, baseUrl := rc.baseUrl, organisationID := rc.organisationID }

/-- Modelled from the spec: the field list of the JSON serialization of a
record. `models.go` (the struct tags governing which fields are emitted)
is not among the sources; per the spec, `version` is present only when the
record carries one, and the identifier fields are always emitted. -/
def recordJsonFields (a : AccountData) : List String :=
  ["id", "organisation_id", "type"]
    ++ (match a.Version with | none => [] | some _ => ["version"])
    ++ (match a.Attributes with | none => [] | some _ => ["attributes"])

/-! ## Enriched HTTP client -/

/-- `context.Context` as the enricher passes it: the background `TODO`
context or a caller context (identified by a tag). -/
inductive GoContext where
  | todo
  | user : Nat → GoContext
deriving DecidableEq, Repr

/-- `pkg/requestenricher.RequestEnricher`: optional context, optional
before hook, optional after hook. Hooks are effectful in Go; here they
transform an arbitrary instrumentation state `σ`. -/
structure RequestEnricher (σ : Type) where
  ctx : Option GoContext
  beforeHook : Option (σ → σ)
  afterHook : Option (Response → σ → σ)

/-- `getCtx`: the first enricher's context when present, else `TODO`. -/
def getCtx (en : List (RequestEnricher σ)) : GoContext :=
  match en with
  | [] => .todo
  | e :: _ =>
    match e.ctx with
    | none => .todo
    | some c => c

/-- `getBeforeHook`: the first enricher's before hook, else a no-op. -/
def getBeforeHook (en : List (RequestEnricher σ)) : σ → σ :=
  match en with
  | [] => id
  | e :: _ =>
    match e.beforeHook with
    | none => id
    | some h => h

/-- `getAfterHook`: the first enricher's after hook, else a no-op. -/
def getAfterHook (en : List (RequestEnricher σ)) : Response → σ → σ :=
  match en with
  | [] => fun _ s => s
  | e :: _ =>
    match e.afterHook with
    | none => fun _ s => s
    | some h => h

/-- `cloneResponse`: a shallow copy of the response with the body replaced
by an already-drained empty stream. -/
def cloneResponse (resp : Response) : Response :=
  { status := resp.status
    statusCode := resp.statusCode
    proto := resp.proto
    header := resp.header
    body := emptyBody
    contentLength := resp.contentLength }

/-- `EnrichedHttpClient.Do`: attach the context, run the before hook, send;
on transport failure return it at once; on success run the after hook on a
body-less clone and return the original response. The underlying
`http.Client.Do` is the `send` argument, a function of the attached
context and the request; the instrumentation state is threaded through the
hooks. -/
def enrichedDo (send : GoContext → Request → Except GoError Response)
    (req : Request) (en : List (RequestEnricher σ)) (s : σ) :
    Except GoError Response × σ :=
  let ctx := getCtx en
  let s1 := getBeforeHook en s
  match send ctx req with
  | .error e => (.error e, s1)
  | .ok resp => (.ok resp, getAfterHook en (cloneResponse resp) s1)

/-! ## Unfolding lemmas for the operations -/

lemma create_doFn_error (c : AccountClient) (u : Uuid)
    (attributes : AccountAttributes) (e : GoError)
    (h : c.doFn (createRequest c (createdRecord c u attributes)) = .error e) :
    create c (.ok u) attributes =
      (.error e, [createRequest c (createdRecord c u attributes)]) := by
  simp only [create]
  rw [h]

lemma create_doFn_ok (c : AccountClient) (u : Uuid)
    (attributes : AccountAttributes) (resp : Response)
    (h : c.doFn (createRequest c (createdRecord c u attributes)) = .ok resp) :
    create c (.ok u) attributes =
      (createClassify resp, [createRequest c (createdRecord c u attributes)]) := by
  simp only [create]
  rw [h]

lemma fetch_doFn_error (c : AccountClient) (accountID : Uuid) (e : GoError)
    (hid : accountID ≠ Uuid.nil)
    (h : c.doFn (fetchRequest c accountID) = .error e) :
    fetch c accountID = (.error e, [fetchRequest c accountID]) := by
  simp only [fetch, if_neg hid]
  rw [h]

lemma fetch_doFn_ok (c : AccountClient) (accountID : Uuid) (resp : Response)
    (hid : accountID ≠ Uuid.nil)
    (h : c.doFn (fetchRequest c accountID) = .ok resp) :
    fetch c accountID = (fetchClassify resp, [fetchRequest c accountID]) := by
  simp only [fetch, if_neg hid]
  rw [h]

lemma deleteVersion_doFn_error (c : AccountClient) (accountID : Uuid)
    (version : Nat) (e : GoError) (hid : accountID ≠ Uuid.nil)
    (h : c.doFn (deleteRequest c accountID version) = .error e) :
    deleteVersion c accountID version =
      (some e, [deleteRequest c accountID version]) := by
  simp only [deleteVersion, if_neg hid]
  rw [h]

lemma deleteVersion_doFn_ok (c : AccountClient) (accountID : Uuid)
    (version : Nat) (resp : Response) (hid : accountID ≠ Uuid.nil)
    (h : c.doFn (deleteRequest c accountID version) = .ok resp) :
    deleteVersion c accountID version =
      (deleteClassify resp, [deleteRequest c accountID version]) := by
  simp only [deleteVersion, if_neg hid]
  rw [h]

/-! ## Concrete fixtures used to instantiate the theorems -/

/-- A record as the fake server would return it: identifiers, type, a
version and no attributes. -/
def okRecord : AccountData :=
  { ID := "uuid-9", OrganisationID := "uuid-7", Type' := "accounts"
    Version := some 3, Attributes := none }

/-- A body holding `{"data": okRecord}`. -/
def okBody : Body :=
  { errDecode := .eof, dataDecode := .ok okRecord, rawRead := .ok "" }

/-- A `200 OK` response carrying `okBody`. -/
def resp200 : Response :=
  { status := "200 OK", statusCode := 200, proto := "HTTP/1.1"
    header := [], body := okBody, contentLength := 39 }

/-- A `201 Created` response carrying `okBody`. -/
def resp201 : Response :=
  { status := "201 Created", statusCode := 201, proto := "HTTP/1.1"
    header := [], body := okBody, contentLength := 39 }

/-- A `204 No Content` response with an empty body. -/
def resp204 : Response :=
  { status := "204 No Content", statusCode := 204, proto := "HTTP/1.1"
    header := [], body := emptyBody, contentLength := 0 }

/-- A client whose transport answers every GET with `resp200` and every
other request with `resp204`. -/
def fixtureClient : AccountClient :=
  { doFn := fun req => if req.method = "GET" then .ok resp200 else .ok resp204
    baseUrl := "http://x", organisationID := ⟨7⟩ }

/-- A client whose transport answers every request with `resp201`. -/
def fixtureCreateClient : AccountClient :=
  { doFn := fun _ => .ok resp201
    baseUrl := "http://x", organisationID := ⟨7⟩ }

/-! ## Claims -/

lemma create_trace (c : AccountClient) (u : Uuid)
    (attributes : AccountAttributes) :
    (create c (.ok u) attributes).snd =
      [createRequest c (createdRecord c u attributes)] := by
  simp only [create]
  cases c.doFn (createRequest c (createdRecord c u attributes)) <;> rfl

lemma newClient_ok_organisationID (envCfg : ClientConfig)
    (options : List ConfigOption) (rc : ResolvedConfig)
    (h : newClient envCfg options = .ok rc) :
    rc.organisationID ≠ Uuid.nil := by
  simp only [newClient] at h
  rcases hb : (applyOptions envCfg options).baseUrl with _ | b <;>
    rw [hb] at h <;> simp only at h
  · cases h
  · by_cases hbe : b = ""
    · rw [if_pos hbe] at h
      cases h
    · rw [if_neg hbe] at h
      rcases ho : (applyOptions envCfg options).organisationID with _ | o <;>
        rw [ho] at h <;> simp only at h
      · cases h
      · by_cases hoe : o = Uuid.nil
        · rw [if_pos hoe] at h
          cases h
        · rw [if_neg hoe] at h
          simp only [Except.ok.injEq] at h
          rw [← h]
          exact hoe

/-- A response with the given status and body; the classifiers read no
other field. -/
def mkResp (s : Nat) (b : Body) : Response :=
  { status := "", statusCode := s, proto := "HTTP/1.1", header := []
    body := b, contentLength := 0 }

/-- Claim C3: the status-to-error mapping is total and deterministic. For
each documented status — 404, 409 on delete, 400 on create, 500/502/504,
503 — and for every pair of bodies, the classifier returns exactly the
listed kind, the same for both bodies, body decoding being needed only for
the message; the catch-all of `Create` and `Fetch` returns
`ErrUnexpectedServerResponse` for every readable body; and `DeleteVersion`
on an undocumented status is likewise body-independent. -/
theorem classification_total_and_deterministic (s : Nat) (b b' : Body)
    (msg msg' : String)
    (hb : getErrorResponse b = .ok msg)
    (hb' : getErrorResponse b' = .ok msg') :
    (fetchClassify (mkResp 404 b) = .error .accountNotFound ∧
      deleteClassify (mkResp 404 b) = some .accountNotFound) ∧
    (deleteClassify (mkResp 409 b) = some .invalidAccountVersion ∧
      deleteClassify (mkResp 409 b) = deleteClassify (mkResp 409 b')) ∧
    (createClassify (mkResp 400 b) = .error .invalidRequest ∧
      createClassify (mkResp 400 b) = createClassify (mkResp 400 b')) ∧
    (∀ t, (t = 500 ∨ t = 502 ∨ t = 504) →
      createClassify (mkResp t b) = .error .serverError ∧
      fetchClassify (mkResp t b) = .error .serverError ∧
      deleteClassify (mkResp t b) = some .serverError ∧
      createClassify (mkResp t b) = createClassify (mkResp t b')) ∧
    (createClassify (mkResp 503 b) = .error .serverUnavailable ∧
      fetchClassify (mkResp 503 b) = .error .serverUnavailable ∧
      deleteClassify (mkResp 503 b) = some .serverUnavailable) ∧
    (s ∉ ([200, 201, 400, 500, 502, 503, 504] : List Nat) → s ≠ 404 →
      ∀ raw raw', b.rawRead = .ok raw → b'.rawRead = .ok raw' →
      createClassify (mkResp s b) = .error .unexpectedServerResponse ∧
      fetchClassify (mkResp s b) = .error .unexpectedServerResponse ∧
      createClassify (mkResp s b) = createClassify (mkResp s b')) ∧
    (s ∉ ([204, 404, 409, 500, 502, 503, 504] : List Nat) →
      deleteClassify (mkResp s b) = deleteClassify (mkResp s b')) := by
  refine ⟨?_, ?_, ?_, ?_, ?_, ?_, ?_⟩
  · exact ⟨by simp [fetchClassify, mkResp], by simp [deleteClassify, mkResp]⟩
  · exact ⟨by simp [deleteClassify, mkResp, hb],
      by simp [deleteClassify, mkResp, hb, hb']⟩
  · exact ⟨by simp [createClassify, mkResp, hb],
      by simp [createClassify, mkResp, hb, hb']⟩
  · intro t ht
    rcases ht with ht | ht | ht <;>
      subst ht <;>
      exact ⟨by simp [createClassify, mkResp, hb],
        by simp [fetchClassify, mkResp, hb],
        by simp [deleteClassify, mkResp, hb],
        by simp [createClassify, mkResp, hb, hb']⟩
  · exact ⟨by simp [createClassify, mkResp],
      by simp [fetchClassify, mkResp],
      by simp [deleteClassify, mkResp]⟩
  · intro hs h404 raw raw' hr hr'
    simp only [List.mem_cons, List.mem_singleton, not_or] at hs
    obtain ⟨h200, h201, h400, h500, h502, h503, h504, -⟩ := hs
    refine ⟨?_, ?_, ?_⟩
    · simp [createClassify, mkResp, h201, h400, h500, h502, h503, h504,
        unexpectedResponse, hr]
    · simp [fetchClassify, mkResp, h200, h404, h500, h502, h503, h504,
        unexpectedResponse, hr]
    · simp [createClassify, mkResp, h201, h400, h500, h502, h503, h504,
        unexpectedResponse, hr, hr']
  · intro hs
    simp only [List.mem_cons, List.mem_singleton, not_or] at hs
    obtain ⟨h204, h404, h409, h500, h502, h503, h504, -⟩ := hs
    simp [deleteClassify, mkResp, h204, h404, h409, h500, h502, h503, h504]

/-- Witness for C3: at status 409 with two different decodable bodies, the
delete classifier returns `ErrInvalidAccountVersion` for both. -/
theorem classification_total_and_deterministic_witness :
    deleteClassify (mkResp 409
        { errDecode := .ok "invalid version", dataDecode := .eof,
          rawRead := .ok "a" }) = some .invalidAccountVersion :=
  (classification_total_and_deterministic 418
      { errDecode := .ok "invalid version", dataDecode := .eof,
        rawRead := .ok "a" }
      { errDecode := .eof, dataDecode := .eof, rawRead := .ok "b" }
      "invalid version" "" rfl rfl).2.1.1

/-- Claim C5: `Create` sends exactly one POST to
`{base_url}/organisation/accounts` whose `{"data": record}` payload
carries the generated identifier rendered as a UUID string, the client's
configured organisation identifier, the fixed `accounts` discriminator and
the caller's attributes, with no version field — whatever the attributes
are. -/
theorem create_sends_configured_record (c : AccountClient) (u : Uuid)
    (attributes : AccountAttributes) :
    (create c (.ok u) attributes).snd =
      [createRequest c (createdRecord c u attributes)] ∧
    (createRequest c (createdRecord c u attributes)).method = "POST" ∧
    (createRequest c (createdRecord c u attributes)).url =
      c.baseUrl ++ accountsUrl ∧
    (createRequest c (createdRecord c u attributes)).body =
      some (createdRecord c u attributes) ∧
    (createdRecord c u attributes).ID = u.render ∧
    (createdRecord c u attributes).OrganisationID = c.organisationID.render ∧
    (createdRecord c u attributes).Type' = accountsType ∧
    (createdRecord c u attributes).Attributes = some attributes ∧
    (createdRecord c u attributes).Version = none ∧
    "version" ∉ recordJsonFields (createdRecord c u attributes) := by
  refine ⟨create_trace c u attributes, rfl, rfl, rfl, rfl, rfl, rfl, rfl, rfl, ?_⟩
  simp [recordJsonFields, createdRecord]

/-- Witness for C5: on the create fixture client, the one request sent is
the POST of the constructed record. -/
theorem create_sends_configured_record_witness :
    (create fixtureCreateClient (.ok ⟨9⟩) ⟨"payload"⟩).snd =
      [createRequest fixtureCreateClient
        (createdRecord fixtureCreateClient ⟨9⟩ ⟨"payload"⟩)] :=
  (create_sends_configured_record fixtureCreateClient ⟨9⟩ ⟨"payload"⟩).1

/-- Claim C6: for every version and enrichment state, `Fetch` and
`DeleteVersion` on the nil UUID issue no request and fail with
`ErrNilUuid`, and `Delete` on the nil UUID does the same through its
initial `Fetch`. -/
theorem nil_uuid_no_network_call (c : AccountClient) (version : Nat) :
    fetch c Uuid.nil = (.error .nilUuid, []) ∧
    deleteVersion c Uuid.nil version = (some .nilUuid, []) ∧
    delete c Uuid.nil = (some .nilUuid, []) := by
  refine ⟨?_, ?_, ?_⟩
  · simp [fetch]
  · simp [deleteVersion]
  · simp [delete, fetch]

/-- Claim C1: for a `Create` call whose transport send succeeds, a 201
response decodes the `{"data": record}` body and returns the record; 400
decodes the error body and fails with `ErrInvalidRequest`; 500, 502 and
504 decode the error body and fail with `ErrServerError`; 503 fails with
`ErrServerUnavailable` with no body decode; any other status reads the raw
body and fails with `ErrUnexpectedServerResponse`; and a transport failure
is returned to the caller unchanged. -/
theorem create_response_classification (c : AccountClient) (u : Uuid)
    (attributes : AccountAttributes) :
    (∀ e, c.doFn (createRequest c (createdRecord c u attributes)) = .error e →
        create c (.ok u) attributes =
          (.error e, [createRequest c (createdRecord c u attributes)])) ∧
    (∀ resp, c.doFn (createRequest c (createdRecord c u attributes)) = .ok resp →
      ((resp.statusCode = 201 → ∀ d, resp.body.dataDecode = .ok d →
          (create c (.ok u) attributes).fst = .ok d) ∧
       (resp.statusCode = 400 → ∀ msg, getErrorResponse resp.body = .ok msg →
          (create c (.ok u) attributes).fst = .error .invalidRequest) ∧
       ((resp.statusCode = 500 ∨ resp.statusCode = 502 ∨ resp.statusCode = 504) →
          ∀ msg, getErrorResponse resp.body = .ok msg →
          (create c (.ok u) attributes).fst = .error .serverError) ∧
       (resp.statusCode = 503 →
          (create c (.ok u) attributes).fst = .error .serverUnavailable) ∧
       (resp.statusCode ∉ ([201, 400, 500, 502, 503, 504] : List Nat) →
          ∀ raw, resp.body.rawRead = .ok raw →
          (create c (.ok u) attributes).fst =
            .error .unexpectedServerResponse))) := by
  constructor
  · intro e h
    exact create_doFn_error c u attributes e h
  · intro resp h
    rw [create_doFn_ok c u attributes resp h]
    refine ⟨?_, ?_, ?_, ?_, ?_⟩
    · intro hs d hd
      simp [createClassify, hs, bodyToAccountData, hd]
    · intro hs msg hmsg
      simp [createClassify, hs, hmsg]
    · intro hs msg hmsg
      rcases hs with hs | hs | hs <;> simp [createClassify, hs, hmsg]
    · intro hs
      simp [createClassify, hs]
    · intro hs raw hraw
      simp only [List.mem_cons, List.mem_singleton, not_or] at hs
      obtain ⟨h201, h400, h500, h502, h503, h504, -⟩ := hs
      simp [createClassify, h201, h400, h500, h502, h503, h504,
        unexpectedResponse, hraw]

/-- Witness for C1: with a transport always answering `resp201`, `Create`
returns the decoded record. -/
theorem create_response_classification_witness :
    (create fixtureCreateClient (.ok ⟨9⟩) ⟨"payload"⟩).fst = .ok okRecord :=
  (((create_response_classification fixtureCreateClient ⟨9⟩
      ⟨"payload"⟩).2 resp201 rfl).1 rfl okRecord rfl)

/-- Claim C2: for a `DeleteVersion` call with a non-nil identifier whose
transport send succeeds, 404 yields `ErrAccountNotFound`, 409 yields
`ErrInvalidAccountVersion` once the error body decodes, 500, 502 and 504
yield `ErrServerError`, 503 yields `ErrServerUnavailable`, 204 succeeds,
and any other status returns the transport-level error, namely `nil`
because the send succeeded. -/
theorem deleteVersion_response_classification (c : AccountClient)
    (accountID : Uuid) (version : Nat) (hid : accountID ≠ Uuid.nil) :
    ∀ resp, c.doFn (deleteRequest c accountID version) = .ok resp →
      ((resp.statusCode = 404 →
          (deleteVersion c accountID version).fst = some .accountNotFound) ∧
       (resp.statusCode = 409 → ∀ msg, getErrorResponse resp.body = .ok msg →
          (deleteVersion c accountID version).fst =
            some .invalidAccountVersion) ∧
       ((resp.statusCode = 500 ∨ resp.statusCode = 502 ∨ resp.statusCode = 504) →
          ∀ msg, getErrorResponse resp.body = .ok msg →
          (deleteVersion c accountID version).fst = some .serverError) ∧
       (resp.statusCode = 503 →
          (deleteVersion c accountID version).fst = some .serverUnavailable) ∧
       (resp.statusCode = 204 →
          (deleteVersion c accountID version).fst = none) ∧
       (resp.statusCode ∉ ([204, 404, 409, 500, 502, 503, 504] : List Nat) →
          (deleteVersion c accountID version).fst = none)) := by
  intro resp h
  rw [deleteVersion_doFn_ok c accountID version resp hid h]
  refine ⟨?_, ?_, ?_, ?_, ?_, ?_⟩
  · intro hs
    simp [deleteClassify, hs]
  · intro hs msg hmsg
    simp [deleteClassify, hs, hmsg]
  · intro hs msg hmsg
    rcases hs with hs | hs | hs <;> simp [deleteClassify, hs, hmsg]
  · intro hs
    simp [deleteClassify, hs]
  · intro hs
    simp [deleteClassify, hs]
  · intro hs
    simp only [List.mem_cons, List.mem_singleton, not_or] at hs
    obtain ⟨h204, h404, h409, h500, h502, h503, h504, -⟩ := hs
    simp [deleteClassify, h204, h404, h409, h500, h502, h503, h504]

/-- Witness for C2: on the fixture client, deleting at version 3 hits the
204 branch and succeeds. -/
theorem deleteVersion_response_classification_witness :
    (deleteVersion fixtureClient ⟨5⟩ 3).fst = none :=
  ((deleteVersion_response_classification fixtureClient ⟨5⟩ 3
      (by decide) resp204 rfl).2.2.2.2.1 rfl)

/-- Claim C4: for every non-nil identifier, `Delete` behaves exactly as
`Fetch` followed by `DeleteVersion` at the fetched version: a fetch error
(including `ErrAccountNotFound`) is propagated unchanged with no delete
request issued, and on fetch success the result and the remaining trace
are those of `DeleteVersion` at `versionOf acc`, which is the record's
version (converted as Go `uint`) when present and `0` when absent. -/
theorem delete_refines_fetch_then_deleteVersion (c : AccountClient)
    (accountID : Uuid) (hid : accountID ≠ Uuid.nil) :
    (∀ e tr, fetch c accountID = (.error e, tr) →
        delete c accountID = (some e, tr)) ∧
    (∀ acc tr, fetch c accountID = (.ok acc, tr) →
        delete c accountID =
          ((deleteVersion c accountID (versionOf acc)).fst,
            tr ++ (deleteVersion c accountID (versionOf acc)).snd)) ∧
    (∀ acc : AccountData, acc.Version = none → versionOf acc = 0) ∧
    (∀ (acc : AccountData) (v : Int), acc.Version = some v → 0 ≤ v →
        v < 2 ^ 63 → versionOf acc = v.toNat) := by
  refine ⟨?_, ?_, ?_, ?_⟩
  · intro e tr h
    simp [delete, h]
  · intro acc tr h
    simp [delete, h]
  · intro acc h
    simp [versionOf, h]
  · intro acc v h hv hv2
    simp only [versionOf, h, goUintOfInt64]
    rw [Int.emod_eq_of_lt hv (by omega)]

/-- Witness for C4: on the fixture client, deleting account `⟨5⟩` fetches
the record at version 3 and then deletes at version 3, succeeding. -/
theorem delete_refines_fetch_then_deleteVersion_witness :
    delete fixtureClient ⟨5⟩ =
      (none, [fetchRequest fixtureClient ⟨5⟩,
              deleteRequest fixtureClient ⟨5⟩ 3]) := by
  have h := (delete_refines_fetch_then_deleteVersion fixtureClient ⟨5⟩
      (by decide)).2.1 okRecord [fetchRequest fixtureClient ⟨5⟩] (by rfl)
  rw [h]
  rfl

/-- The configuration obtained when no environment variable is set and the
defaults have been filled in (`envDefault` tags of
`internal/config/config.go`): 5s timeout, 100 connections, 90s idle
timeout, no base URL, no organisation id. -/
def envDefaults : ClientConfig :=
  { organisationID := none, baseUrl := none
    timeout := some 5000000000, maxConns := 100
    idleConnTimeout := some 90000000000 }

/-- Claim C7: construction loads the environment configuration first and
applies each option in order, each able to overwrite any field; after the
options, it fails with `ErrBaseUrlNotConfigured` exactly when the
resulting base URL is nil or empty, fails with
`ErrOrganisationIDNotConfigured` when the base URL is usable but the
organisation id is missing, and otherwise returns the client. -/
theorem newClient_validation (envCfg : ClientConfig)
    (options : List ConfigOption) :
    (applyOptions envCfg [] = envCfg) ∧
    (∀ opt, applyOptions envCfg (options ++ [opt]) =
        opt (applyOptions envCfg options)) ∧
    (newClient envCfg options = .error .baseUrlNotConfigured ↔
      (applyOptions envCfg options).baseUrl = none ∨
      (applyOptions envCfg options).baseUrl = some "") ∧
    (∀ b, (applyOptions envCfg options).baseUrl = some b → b ≠ "" →
      (newClient envCfg options = .error .organisationIDNotConfigured ↔
        (applyOptions envCfg options).organisationID = none ∨
        (applyOptions envCfg options).organisationID = some Uuid.nil)) ∧
    (∀ b o, (applyOptions envCfg options).baseUrl = some b → b ≠ "" →
      (applyOptions envCfg options).organisationID = some o → o ≠ Uuid.nil →
      newClient envCfg options = .ok { baseUrl := b, organisationID := o }) := by
  refine ⟨rfl, ?_, ?_, ?_, ?_⟩
  · intro opt
    simp [applyOptions]
  · constructor
    · intro h
      by_contra hc
      push_neg at hc
      obtain ⟨h1, h2⟩ := hc
      simp only [newClient] at h
      rcases hb : (applyOptions envCfg options).baseUrl with _ | b
      · exact h1 hb
      · rw [hb] at h
        simp only at h
        have hbne : b ≠ "" := fun he => h2 (by rw [hb, he])
        rw [if_neg hbne] at h
        rcases ho : (applyOptions envCfg options).organisationID with _ | o <;>
          rw [ho] at h <;> simp only at h
        · cases h
        · split at h <;> cases h
    · intro h
      simp only [newClient]
      rcases h with h | h <;> rw [h] <;> simp
  · intro b hb hbne
    simp only [newClient]
    rw [hb]
    simp only [if_neg hbne]
    constructor
    · intro h
      rcases ho : (applyOptions envCfg options).organisationID with _ | o
      · exact Or.inl rfl
      · rw [ho] at h
        simp only at h
        split at h
        · rename_i ho0
          exact Or.inr (by rw [ho0])
        · cases h
    · intro h
      rcases h with h | h <;> rw [h] <;> simp
  · intro b o hb hbne ho hone
    simp only [newClient]
    rw [hb, ho]
    simp [hbne, hone]

/-- Witness for C7: starting from the defaulted environment, the base-URL
and organisation options produce a client carrying exactly those values. -/
theorem newClient_validation_witness :
    newClient envDefaults [withBaseUrl "http://x", withOrganisationID ⟨7⟩] =
      .ok { baseUrl := "http://x", organisationID := ⟨7⟩ } :=
  (newClient_validation envDefaults
      [withBaseUrl "http://x", withOrganisationID ⟨7⟩]).2.2.2.2
    "http://x" ⟨7⟩ rfl (by decide) rfl (by decide)

/-- A body whose `{error_message}` decode fails hard (malformed JSON). -/
def malformedBody : Body :=
  { errDecode := .fail "invalid character", dataDecode := .fail "invalid character"
    rawRead := .ok "not json" }

/-- A client whose transport answers every request with a 400 response
carrying `malformedBody`. -/
def fixtureMalformedClient : AccountClient :=
  { doFn := fun _ => .ok (mkResp 400 malformedBody)
    baseUrl := "http://x", organisationID := ⟨7⟩ }

/-- Claim C8: in the error-body decode used for 400, 409, 500, 502 and
504, an empty body (`io.EOF`) yields the empty message and no error while
any other decode failure is a hard error, and the operation then returns
that decode error unchanged instead of the status's classified kind. -/
theorem error_body_decode_behaviour (c : AccountClient) (u : Uuid)
    (attributes : AccountAttributes) (b : Body) (m : String) (s : Nat) :
    (b.errDecode = .eof → getErrorResponse b = .ok "") ∧
    (b.errDecode = .fail m → getErrorResponse b = .error (.decodeError m)) ∧
    (b.errDecode = .fail m → (s = 400 ∨ s = 500 ∨ s = 502 ∨ s = 504) →
       createClassify (mkResp s b) = .error (.decodeError m)) ∧
    (b.errDecode = .fail m → (s = 500 ∨ s = 502 ∨ s = 504) →
       fetchClassify (mkResp s b) = .error (.decodeError m)) ∧
    (b.errDecode = .fail m → (s = 409 ∨ s = 500 ∨ s = 502 ∨ s = 504) →
       deleteClassify (mkResp s b) = some (.decodeError m)) ∧
    (b.errDecode = .eof →
       createClassify (mkResp 400 b) = .error .invalidRequest) ∧
    (∀ resp, c.doFn (createRequest c (createdRecord c u attributes)) = .ok resp →
       resp.statusCode = 400 → resp.body.errDecode = .fail m →
       (create c (.ok u) attributes).fst = .error (.decodeError m)) := by
  refine ⟨?_, ?_, ?_, ?_, ?_, ?_, ?_⟩
  · intro h
    simp [getErrorResponse, h]
  · intro h
    simp [getErrorResponse, h]
  · intro h hs
    rcases hs with hs | hs | hs | hs <;>
      simp [createClassify, mkResp, hs, getErrorResponse, h]
  · intro h hs
    rcases hs with hs | hs | hs <;>
      simp [fetchClassify, mkResp, hs, getErrorResponse, h]
  · intro h hs
    rcases hs with hs | hs | hs | hs <;>
      simp [deleteClassify, mkResp, hs, getErrorResponse, h]
  · intro h
    simp [createClassify, mkResp, getErrorResponse, h]
  · intro resp hresp hs h
    rw [create_doFn_ok c u attributes resp hresp]
    simp [createClassify, hs, getErrorResponse, h]

/-- Witness for C8: a `Create` answered 400 with a malformed error body
fails with the decode error, not with `ErrInvalidRequest`. -/
theorem error_body_decode_behaviour_witness :
    (create fixtureMalformedClient (.ok ⟨9⟩) ⟨"payload"⟩).fst =
      .error (.decodeError "invalid character") :=
  (error_body_decode_behaviour fixtureMalformedClient ⟨9⟩ ⟨"payload"⟩
      malformedBody "invalid character" 400).2.2.2.2.2.2
    (mkResp 400 malformedBody) rfl rfl rfl

/-- Claim C9: the enriched transport returns a transport failure
immediately without invoking the after hook; on success the after hook is
invoked with a shallow clone of the response whose body is an empty
stream, while the caller receives the original response with its real body
intact, unaltered by either hook. -/
theorem enriched_do_hooks {σ : Type}
    (send : GoContext → Request → Except GoError Response)
    (req : Request) (en : List (RequestEnricher σ)) (s : σ) :
    (∀ e, send (getCtx en) req = .error e →
        enrichedDo send req en s = (.error e, getBeforeHook en s)) ∧
    (∀ resp, send (getCtx en) req = .ok resp →
        enrichedDo send req en s =
          (.ok resp, getAfterHook en (cloneResponse resp) (getBeforeHook en s)) ∧
        (cloneResponse resp).body = emptyBody ∧
        (cloneResponse resp).status = resp.status ∧
        (cloneResponse resp).statusCode = resp.statusCode ∧
        (cloneResponse resp).proto = resp.proto ∧
        (cloneResponse resp).header = resp.header ∧
        (cloneResponse resp).contentLength = resp.contentLength) := by
  constructor
  · intro e h
    simp only [enrichedDo]
    rw [h]
  · intro resp h
    refine ⟨?_, rfl, rfl, rfl, rfl, rfl, rfl⟩
    simp only [enrichedDo]
    rw [h]

/-- An enricher whose after hook records the response it was given. -/
def recordingEnricher : RequestEnricher (Option Response) :=
  { ctx := none, beforeHook := none, afterHook := some (fun r _ => some r) }

/-- Witness for C9: with a recording after hook and a transport answering
`resp200`, the caller gets `resp200` with its body intact and the hook saw
only the body-less clone. -/
theorem enriched_do_hooks_witness :
    enrichedDo (fun _ _ => .ok resp200)
        { method := "GET", url := "http://x", body := none }
        [recordingEnricher] (none : Option Response) =
      (.ok resp200, some (cloneResponse resp200)) ∧
    (cloneResponse resp200).body = emptyBody ∧
    resp200.body ≠ emptyBody := by
  have h := (enriched_do_hooks (fun _ _ => .ok resp200)
      { method := "GET", url := "http://x", body := none }
      [recordingEnricher] (none : Option Response)).2 resp200 rfl
  exact ⟨h.1, h.2.1, by decide⟩

/-- Counterexample to C10 as stated: an option list that leaves the
configuration with the nil organisation id but no base URL makes
`NewClient` fail with the base-URL error, not the organisation-ID error
(the base-URL check runs first). -/
theorem org_nil_guard_counterexample :
    (applyOptions envDefaults [withOrganisationID Uuid.nil]).organisationID =
      some Uuid.nil ∧
    newClient envDefaults [withOrganisationID Uuid.nil] =
      .error .baseUrlNotConfigured ∧
    newClient envDefaults [withOrganisationID Uuid.nil] ≠
      .error .organisationIDNotConfigured := by
  refine ⟨rfl, rfl, ?_⟩
  decide

/-- Claim C10 (amended): when the post-options configuration holds the nil
UUID as organisation id and a usable base URL, `NewClient` fails with the
organisation-ID error — a present-but-nil identifier is treated as a
missing one; consequently every successfully constructed client holds a
non-nil organisation UUID, and every request `Create` sends on such a
client carries a record whose organisation id is the rendering of a
non-nil UUID. -/
theorem org_nil_guard (envCfg : ClientConfig) (options : List ConfigOption)
    (doFn : Request → Except GoError Response) (u : Uuid)
    (attributes : AccountAttributes) :
    (∀ b, (applyOptions envCfg options).baseUrl = some b → b ≠ "" →
      (applyOptions envCfg options).organisationID = some Uuid.nil →
      newClient envCfg options = .error .organisationIDNotConfigured) ∧
    (∀ rc, newClient envCfg options = .ok rc →
      rc.organisationID ≠ Uuid.nil) ∧
    (∀ rc, newClient envCfg options = .ok rc →
      ∀ req ∈ (create (clientOf doFn rc) (.ok u) attributes).snd,
        ∃ o rec, o ≠ Uuid.nil ∧ req.body = some rec ∧
          rec.OrganisationID = o.render) := by
  refine ⟨?_, ?_, ?_⟩
  · intro b hb hbne ho
    simp only [newClient]
    rw [hb]
    simp only
    rw [if_neg hbne, ho]
    simp
  · intro rc h
    exact newClient_ok_organisationID envCfg options rc h
  · intro rc h req hreq
    rw [create_trace (clientOf doFn rc) u attributes] at hreq
    simp only [List.mem_singleton] at hreq
    subst hreq
    refine ⟨rc.organisationID, createdRecord (clientOf doFn rc) u attributes,
      newClient_ok_organisationID envCfg options rc h, rfl, rfl⟩

/-- Witness for C10: the nil organisation id supplied by option, with a
usable base URL, is rejected exactly like a missing one. -/
theorem org_nil_guard_witness :
    newClient envDefaults [withBaseUrl "http://x", withOrganisationID Uuid.nil] =
      .error .organisationIDNotConfigured :=
  (org_nil_guard envDefaults
      [withBaseUrl "http://x", withOrganisationID Uuid.nil]
      (fun _ => .error .eofError) ⟨9⟩ ⟨"payload"⟩).1
    "http://x" rfl (by decide) rfl
